import Mathlib

/-!
Verification of the `changes-roller` patch-series orchestrator.

This file gives a shallow embedding, in Lean 4, of the parts of the
repository that the examined properties talk about:

* `roller/repository.py` — the source-control adapter: repository-name
  extraction, `run_command` (shell execution with a 10-minute timeout),
  and `branch_exists`.
* `roller/executor.py` — the per-repository workflow (`_process_repository`),
  the commit-message renderer (`_render_commit_message`) and the
  orchestrator (`execute`).

External effects (subprocess results, filesystem state) are supplied by
explicit environment records; the embedded functions return, next to the
Python function's return value, the list of observable events they emit
(reporter calls and adapter operations), so that frame properties
("no commit happens on this path") are expressible.
-/

/-! ## Python string primitives used by the source -/

/-- Characters treated as whitespace by Python's `str.strip()`. -/
def pyIsSpace (c : Char) : Bool :=
  c = ' ' || c = '\t' || c = '\n' || c = '\x0d' || c = '\x0b' || c = '\x0c'

/-- Python `str.strip()` on a character list: drop whitespace at both ends. -/
def pyStripL (s : List Char) : List Char :=
  (((s.dropWhile pyIsSpace).reverse).dropWhile pyIsSpace).reverse

/-- Python `str.strip()`. -/
def pyStrip (s : String) : String :=
  String.mk (pyStripL s.data)

/-- Python `str.split(sep)` for a one-character separator, on character
lists.  `split` of the empty string is `[""]`, and separators at the ends
produce empty fields, exactly as in Python. -/
def splitOnCharL (sep : Char) : List Char → List (List Char)
  | [] => [[]]
  | c :: rest =>
    if c = sep then [] :: splitOnCharL sep rest
    else
      match splitOnCharL sep rest with
      | [] => [[c]]
      | h :: t => (c :: h) :: t

/-- Python `s.split("\n")`. -/
def splitLines (s : String) : List String :=
  (splitOnCharL '\n' s.data).map String.mk

/-- Python `str.capitalize()`: first character upper-cased, the rest
lower-cased. -/
def pyCapitalize (s : String) : String :=
  match s.data with
  | [] => ""
  | c :: rest => String.mk (c.toUpper :: rest.map Char.toLower)

/-- Python `str.rstrip("/")`: drop every trailing slash. -/
def rstripSlashL (s : List Char) : List Char :=
  ((s.reverse).dropWhile (fun c => c = '/')).reverse

/-- Python `str.replace(pat, rep)` (all non-overlapping occurrences, left
to right, the replacement text is not rescanned), written with explicit
fuel so that it is structurally recursive.  The scan only consumes the
pattern when it is non-empty, which is the case at both call sites in
`roller/executor.py` (`_render_commit_message`). -/
def listReplaceF (pat rep : List Char) : Nat → List Char → List Char
  | _, [] => []
  | 0, s => s
  | Nat.succ f, c :: rest =>
    if pat.isPrefixOf (c :: rest) && !pat.isEmpty then
      rep ++ listReplaceF pat rep f ((c :: rest).drop pat.length)
    else
      c :: listReplaceF pat rep f rest

/-- Python `str.replace(pat, rep)` on character lists (non-empty `pat`). -/
def listReplace (pat rep s : List Char) : List Char :=
  listReplaceF pat rep s.length s

/-! ## `Repository._extract_repo_name` (roller/repository.py:24-34)

```python
parts = url.rstrip("/").split("/")
name = parts[-1]
if name.endswith(".git"):
    name = name[:-4]
return name
```
-/

/-- Embedding of `Repository._extract_repo_name`. -/
def extract_repo_name (url : String) : String :=
  let parts := splitOnCharL '/' (rstripSlashL url.data)
  let name := parts.getLastD []
  if (".git".data).isSuffixOf name then
    String.mk (name.take (name.length - 4))
  else
    String.mk name

/-! ## `Repository.run_command` (roller/repository.py:128-146)

The behaviour of the shell command that `subprocess.run` would execute is
an explicit record: how long the command would run, its exit code and
output streams, and whether the attempt to run it raises a non-timeout
exception (for example a missing working directory). -/

/-- Outcome of the underlying `subprocess.run` call for one shell command:
its wall-clock duration in seconds, exit code, captured streams, and an
optional non-timeout exception raised by the attempt itself. -/
structure CommandBehavior where
  duration : Nat
  returncode : Int
  stdout : String
  stderr : String
  raises : Option String

/-- The fixed `timeout=600` argument (seconds) passed to `subprocess.run`
in `Repository.run_command`. -/
def RUN_COMMAND_TIMEOUT : Nat := 600

/-- Embedding of `Repository.run_command`: returns `(success, stdout,
stderr)`; a command exceeding the timeout yields the fixed diagnostic, and
any other exception is converted into `(False, "", str(e))`. -/
def run_command (b : CommandBehavior) : Bool × String × String :=
  match b.raises with
  | some msg => (false, "", msg)
  | none =>
    if RUN_COMMAND_TIMEOUT < b.duration then
      (false, "", "Command timed out after 10 minutes")
    else
      (b.returncode == 0, b.stdout, b.stderr)

/-! ## `Repository.branch_exists` (roller/repository.py:164-186)

`git show-ref --verify refs/heads/<name>` is consulted first; only when
it reports a non-zero exit code is `refs/remotes/origin/<name>` checked.
The git ref store is an explicit record, and the function also returns
the list of refs it queried, so that the short-circuit is observable. -/

/-- The git ref store visible to `branch_exists`: which local heads and
which `origin` remote-tracking refs exist. -/
structure RefDb where
  heads : String → Bool
  remotes : String → Bool

/-- Embedding of `Repository.branch_exists`; the second component lists
the refs passed to `git show-ref --verify`, in order. -/
def branch_exists (db : RefDb) (branch_name : String) : Bool × List String :=
  if db.heads branch_name then
    (true, ["refs/heads/" ++ branch_name])
  else
    (db.remotes branch_name,
     ["refs/heads/" ++ branch_name, "refs/remotes/origin/" ++ branch_name])

/-! ## `PatchExecutor._render_commit_message` (roller/executor.py:283-289)

```python
message = self.config.commit_msg
message = message.replace("{{ project_name }}", repo_name)
message = message.replace("{{project_name}}", repo_name)
return message
```
-/

/-- The spaced placeholder literal `"{{ project_name }}"` (braces written
as escapes). -/
def spacedPlaceholder : List Char :=
  ("\x7b\x7b project_name \x7d\x7d").data

/-- The unspaced placeholder literal `"{{project_name}}"`. -/
def unspacedPlaceholder : List Char :=
  ("\x7b\x7bproject_name\x7d\x7d").data

/-- Embedding of `PatchExecutor._render_commit_message`. -/
def render_commit_message (template repo_name : String) : String :=
  let m1 := listReplace spacedPlaceholder (repo_name.data) template.data
  String.mk (listReplace unspacedPlaceholder (repo_name.data) m1)

/-! ## The executor (roller/executor.py)

`SeriesConfig` mirrors the dataclass in `roller/config.py` (validation
happens at load time and is out of scope; the executor consumes the
record as-is).  `branch` is `Option String` because the Python field is
`str | None`, and Python truthiness (`if self.config.branch:`) is `none`
and the empty string being falsy. -/

/-- Embedding of the `SeriesConfig` dataclass (roller/config.py:10-38). -/
structure SeriesConfig where
  projects : List String
  commands : String
  commit_msg : String
  topic : String
  commit : Bool
  review : Bool
  run_tests : Bool
  tests_blocking : Bool
  test_command : String
  branch : Option String
  create_branch : Bool
  stay_on_branch : Bool
  pre_commands : List String
  post_commands : List String
  continue_on_error : Bool
  dry_run : Bool

/-- Python truthiness of a `str | None` value: `None` and `""` are falsy. -/
def pyTruthy : Option String → Bool
  | none => false
  | some s => !(s == "")

/-- Reporter status indicators (roller/reporter.py:9-14). -/
inductive RStatus
  | SUCCESS | FAILED | INFO | RUNNING
deriving DecidableEq

/-- One adapter operation performed by the workflow; each constructor
corresponds to one `Repository` method call, i.e. at least one spawned
subprocess (roller/repository.py). -/
inductive OpKind
  | cloneOp
  | setupReviewOp
  | currentBranchOp
  | hasChangesOp
  | branchExistsOp (branch_name : String)
  | checkoutOp (branch_name : String)
  | createBranchOp (branch_name : String)
  | runCommandOp (cmd : String)
  | stageAllOp
  | commitOp (msg : String)
  | submitReviewOp (topic : Option String)
deriving DecidableEq

/-- Observable events of one orchestrator run: reporter calls
(`print_repo_start`, `print_step`, `add_result`, `print_header`,
`print_summary`), bare `print` calls, the `chmod` of the patch script,
and the adapter operations performed. -/
inductive Event
  | repoStart (index total : Nat) (name : String)
  | op (k : OpKind)
  | step (st : RStatus) (msg : String)
  | result (repo status details : String)
  | print (msg : String)
  | header
  | summary
  | chmodScript
deriving DecidableEq

/-- Outcomes the external world hands to one repository's workflow, one
field per adapter call site in `_process_repository`.  `Except String α`
models a call that can raise `RepositoryError` (the string is the
exception's message); `run_command` call sites are plain result triples
because `run_command` never raises. -/
structure RepoEnv where
  cloneRes : Except String Unit
  setupRes : Except String Unit
  currentBranchRes : Except String String
  hasUncommittedAtSwitch : Except String Bool
  branchExistsRes : Except String Bool
  checkoutRes : Except String Unit
  createRes : Except String Unit
  preRes : Nat → Bool × String × String
  patchRes : Bool × String × String
  hasChangesAfterPatch : Except String Bool
  testRes : Bool × String × String
  stageRes : Except String Unit
  commitRes : Except String String
  reviewRes : Except String Unit
  postRes : Nat → Bool × String × String
  restoreRes : Except String Unit

/-- Prepend one event to a phase outcome. -/
def withEv (e : Event) (p : List Event × Bool) : List Event × Bool :=
  (e :: p.1, p.2)

/-- Prepend several events to a phase outcome. -/
def withEvs (es : List Event) (p : List Event × Bool) : List Event × Bool :=
  (es ++ p.1, p.2)

/-- The `except RepositoryError` handler at the bottom of
`_process_repository` (roller/executor.py:274-277): print a FAILED step
with the exception's message, record a `failed` result, return `False`.
Every raise site inside the `try` block lands here, so the embedding
routes each raising call site to this function directly. -/
def failResult (name msg : String) : List Event × Bool :=
  ([Event.step RStatus.FAILED msg, Event.result name "failed" msg], false)

/-- Line 271-272: `add_result(repo.name, "succeeded"); return True`
(the `details` argument defaults to `""`, roller/reporter.py:38). -/
def succeedPhase (name : String) : List Event × Bool :=
  ([Event.result name "succeeded" ""], true)

/-- Lines 255-269: return to the original branch unless `stay_on_branch`;
runs only when a branch is configured and an original branch was
recorded (in dry-run mode `original_branch` is never recorded, so the
condition is false there). -/
def restorePhase (cfg : SeriesConfig) (env : RepoEnv) (name : String)
    (orig : Option String) : List Event × Bool :=
  if pyTruthy cfg.branch && pyTruthy orig && !cfg.stay_on_branch then
    let ob := orig.getD ""
    if cfg.dry_run then
      withEv (Event.step RStatus.INFO
          ("[DRY RUN] Would return to branch '" ++ ob ++ "'"))
        (succeedPhase name)
    else
      withEv (Event.op (OpKind.checkoutOp ob))
        (match env.restoreRes with
         | Except.error e => failResult name e
         | Except.ok _ =>
           withEv (Event.step RStatus.SUCCESS
               ("Returned to branch '" ++ ob ++ "'"))
             (succeedPhase name))
  else succeedPhase name

/-- `_execute_command` (roller/executor.py:291-318): print a RUNNING
step, run the command, then a SUCCESS step plus up to ten stdout lines,
or a FAILED step plus up to ten stderr lines and, under
`continue_on_error`, a continuation notice.  Returns the command's
success flag. -/
def executeCommand (cfg : SeriesConfig) (r : Bool × String × String)
    (command ctype : String) : List Event × Bool :=
  let head := [Event.step RStatus.RUNNING ("Running " ++ ctype ++ ": " ++ command),
               Event.op (OpKind.runCommandOp command)]
  if r.1 then
    (head ++ [Event.step RStatus.SUCCESS (pyCapitalize ctype ++ " succeeded")] ++
      (if pyStrip r.2.1 == "" then []
       else ((splitLines (pyStrip r.2.1)).take 10).map
         (fun l => Event.step RStatus.INFO l)),
     true)
  else
    (head ++ [Event.step RStatus.FAILED (pyCapitalize ctype ++ " failed")] ++
      (if pyStrip r.2.2 == "" then []
       else ((splitLines (pyStrip r.2.2)).take 10).map
         (fun l => Event.step RStatus.INFO ("Error: " ++ l))) ++
      (if cfg.continue_on_error then
        [Event.step RStatus.INFO
          ("Continuing despite command failure (--continue-on-error)")]
       else []),
     false)

/-- Lines 240-253: the post-command loop; a failing command under
`continue_on_error = False` records a `failed` result and returns
`False`, otherwise the loop proceeds. -/
def postLoop (cfg : SeriesConfig) (env : RepoEnv) (name : String)
    (orig : Option String) : Nat → List String → List Event × Bool
  | _, [] => restorePhase cfg env name orig
  | i, cmd :: rest =>
    if cfg.dry_run then
      withEv (Event.step RStatus.INFO ("[DRY RUN] Would run post-command: " ++ cmd))
        (postLoop cfg env name orig (i + 1) rest)
    else
      let ec := executeCommand cfg (env.postRes i) cmd "post-command"
      if ec.2 then withEvs ec.1 (postLoop cfg env name orig (i + 1) rest)
      else if cfg.continue_on_error then
        withEvs ec.1 (postLoop cfg env name orig (i + 1) rest)
      else
        withEvs ec.1
          ([Event.result name "failed" ("Post-command failed: " ++ cmd)], false)

/-- Lines 229-238: review submission, nested inside the commit block
(`if self.config.review:`); the configured topic is passed unless empty. -/
def reviewPhase (cfg : SeriesConfig) (env : RepoEnv) (name : String)
    (orig : Option String) : List Event × Bool :=
  if cfg.review then
    if cfg.dry_run then
      withEv (Event.step RStatus.INFO ("[DRY RUN] Would submit for review"))
        (postLoop cfg env name orig 0 cfg.post_commands)
    else
      withEv (Event.op (OpKind.submitReviewOp
          (if cfg.topic == "" then none else some cfg.topic)))
        (match env.reviewRes with
         | Except.error e => failResult name e
         | Except.ok _ =>
           withEv (Event.step RStatus.SUCCESS ("Submitted for review"))
             (postLoop cfg env name orig 0 cfg.post_commands))
  else postLoop cfg env name orig 0 cfg.post_commands

/-- Lines 215-227: stage everything, render the commit message, commit,
then the nested review block; when `commit` is off, fall through to the
post-commands. -/
def commitPhase (cfg : SeriesConfig) (env : RepoEnv) (name : String)
    (orig : Option String) : List Event × Bool :=
  if cfg.commit then
    if cfg.dry_run then
      withEv (Event.step RStatus.INFO ("[DRY RUN] Would commit changes"))
        (reviewPhase cfg env name orig)
    else
      withEv (Event.op OpKind.stageAllOp)
        (match env.stageRes with
         | Except.error e => failResult name e
         | Except.ok _ =>
           withEv (Event.op (OpKind.commitOp
               (render_commit_message cfg.commit_msg name)))
             (match env.commitRes with
              | Except.error e => failResult name e
              | Except.ok h =>
                withEv (Event.step RStatus.SUCCESS
                    ("Committed changes (" ++ h ++ ")"))
                  (reviewPhase cfg env name orig)))
  else postLoop cfg env name orig 0 cfg.post_commands

/-- Lines 185-213: the test step; a failing test command is terminal
`failed` only under `tests_blocking`. -/
def testsPhase (cfg : SeriesConfig) (env : RepoEnv) (name : String)
    (orig : Option String) : List Event × Bool :=
  if cfg.run_tests then
    if cfg.dry_run then
      withEv (Event.step RStatus.INFO
          ("[DRY RUN] Would run tests: " ++ cfg.test_command))
        (commitPhase cfg env name orig)
    else
      withEvs [Event.step RStatus.RUNNING
                ("Running tests (" ++ cfg.test_command ++ ")..."),
               Event.op (OpKind.runCommandOp cfg.test_command)]
        (if env.testRes.1 then
          withEv (Event.step RStatus.SUCCESS ("Tests PASSED"))
            (commitPhase cfg env name orig)
         else
          withEv (Event.step RStatus.FAILED ("Tests FAILED"))
            (if cfg.tests_blocking then
              ([Event.result name "failed" ("Tests failed (blocking)")], false)
             else
              withEv (Event.step RStatus.INFO
                  ("Continuing despite test failure (non-blocking)"))
                (commitPhase cfg env name orig)))
  else commitPhase cfg env name orig

/-- Lines 178-183: change detection; with no uncommitted changes the
workflow records `skipped` / `"No changes"` and returns `True`
immediately.  Skipped entirely in dry-run mode. -/
def changePhase (cfg : SeriesConfig) (env : RepoEnv) (name : String)
    (orig : Option String) : List Event × Bool :=
  if !cfg.dry_run then
    withEv (Event.op OpKind.hasChangesOp)
      (match env.hasChangesAfterPatch with
       | Except.error e => failResult name e
       | Except.ok b =>
         if !b then
           ([Event.step RStatus.INFO ("No changes detected, skipping"),
             Event.result name "skipped" "No changes"], true)
         else testsPhase cfg env name orig)
  else testsPhase cfg env name orig

/-- Lines 158-176: run the patch script via `run_command`; a non-zero
exit is terminal `failed` regardless of `continue_on_error`.  `script`
is the absolute path string passed down from `execute`. -/
def patchPhase (cfg : SeriesConfig) (env : RepoEnv) (name script : String)
    (orig : Option String) : List Event × Bool :=
  if cfg.dry_run then
    withEv (Event.step RStatus.INFO
        ("[DRY RUN] Would execute patch script: " ++ script))
      (changePhase cfg env name orig)
  else
    withEv (Event.op (OpKind.runCommandOp script))
      (if !env.patchRes.1 then
        ([Event.step RStatus.FAILED ("Patch script failed (exit code non-zero)")] ++
          (if env.patchRes.2.2 == "" then []
           else [Event.step RStatus.INFO ("Error: " ++ pyStrip env.patchRes.2.2)]) ++
          [Event.result name "failed" ("Patch script failed")], false)
       else
        withEv (Event.step RStatus.SUCCESS ("Executed patch script"))
          (changePhase cfg env name orig))

/-- Lines 143-156: the pre-command loop, same policy as the post-command
loop but continuing into the patch step. -/
def preLoop (cfg : SeriesConfig) (env : RepoEnv) (name script : String)
    (orig : Option String) : Nat → List String → List Event × Bool
  | _, [] => patchPhase cfg env name script orig
  | i, cmd :: rest =>
    if cfg.dry_run then
      withEv (Event.step RStatus.INFO ("[DRY RUN] Would run pre-command: " ++ cmd))
        (preLoop cfg env name script orig (i + 1) rest)
    else
      let ec := executeCommand cfg (env.preRes i) cmd "pre-command"
      if ec.2 then withEvs ec.1 (preLoop cfg env name script orig (i + 1) rest)
      else if cfg.continue_on_error then
        withEvs ec.1 (preLoop cfg env name script orig (i + 1) rest)
      else
        withEvs ec.1
          ([Event.result name "failed" ("Pre-command failed: " ++ cmd)], false)

/-- Lines 106-141: branch switching.  Outside dry-run this records the
current branch (the recorded value is falsy when HEAD is detached),
rejects a dirty working tree, then switches to, or creates, the target
branch. -/
def branchPhase (cfg : SeriesConfig) (env : RepoEnv) (name script : String) :
    List Event × Bool :=
  if pyTruthy cfg.branch then
    let b := cfg.branch.getD ""
    if cfg.dry_run then
      withEv (Event.step RStatus.INFO
          ("[DRY RUN] Would switch to branch '" ++ b ++ "'"))
        (preLoop cfg env name script none 0 cfg.pre_commands)
    else
      withEv (Event.op OpKind.currentBranchOp)
        (match env.currentBranchRes with
         | Except.error e => failResult name e
         | Except.ok ob =>
           withEvs (if ob == "" then []
                    else [Event.step RStatus.INFO ("Current branch: " ++ ob)])
             (withEv (Event.op OpKind.hasChangesOp)
               (match env.hasUncommittedAtSwitch with
                | Except.error e => failResult name e
                | Except.ok hc =>
                  if hc then
                    failResult name
                      ("Repository has uncommitted changes. Please commit or stash them before switching branches.")
                  else
                    withEv (Event.op (OpKind.branchExistsOp b))
                      (match env.branchExistsRes with
                       | Except.error e => failResult name e
                       | Except.ok ex =>
                         if ex then
                           withEv (Event.op (OpKind.checkoutOp b))
                             (match env.checkoutRes with
                              | Except.error e => failResult name e
                              | Except.ok _ =>
                                withEv (Event.step RStatus.SUCCESS
                                    ("Switched to branch '" ++ b ++ "'"))
                                  (preLoop cfg env name script (some ob) 0
                                    cfg.pre_commands))
                         else if cfg.create_branch then
                           withEv (Event.op (OpKind.createBranchOp b))
                             (match env.createRes with
                              | Except.error e => failResult name e
                              | Except.ok _ =>
                                withEv (Event.step RStatus.SUCCESS
                                    ("Created and switched to branch '" ++ b ++ "'"))
                                  (preLoop cfg env name script (some ob) 0
                                    cfg.pre_commands))
                         else
                           failResult name
                             ("Branch '" ++ b ++ "' does not exist. Use --create-branch to create it.")))))
  else preLoop cfg env name script none 0 cfg.pre_commands

/-- Lines 101-104: `git review -s` setup — performed outside dry-run
only; in dry-run the step is skipped with no narration. -/
def setupPhase (cfg : SeriesConfig) (env : RepoEnv) (name script : String) :
    List Event × Bool :=
  if !cfg.dry_run then
    withEv (Event.op OpKind.setupReviewOp)
      (match env.setupRes with
       | Except.error e => failResult name e
       | Except.ok _ =>
         withEv (Event.step RStatus.SUCCESS ("Setup git-review"))
           (branchPhase cfg env name script))
  else branchPhase cfg env name script

/-- Lines 93-99: clone, or its dry-run narration. -/
def clonePhase (cfg : SeriesConfig) (env : RepoEnv) (name script : String) :
    List Event × Bool :=
  if cfg.dry_run then
    withEv (Event.step RStatus.INFO ("[DRY RUN] Would clone repository"))
      (setupPhase cfg env name script)
  else
    withEv (Event.op OpKind.cloneOp)
      (match env.cloneRes with
       | Except.error e => failResult name e
       | Except.ok _ =>
         withEv (Event.step RStatus.SUCCESS ("Cloned repository"))
           (setupPhase cfg env name script))

/-- Embedding of `PatchExecutor._process_repository`
(roller/executor.py:82-281): derives the repository name, prints the
start banner, then runs the phase chain; returns the emitted events and
the method's boolean return value. -/
def process_repository (cfg : SeriesConfig) (env : RepoEnv) (url : String)
    (index total : Nat) (script : String) : List Event × Bool :=
  let name := extract_repo_name url
  withEv (Event.repoStart index total name) (clonePhase cfg env name script)

/-! ## `PatchExecutor.execute` (roller/executor.py:25-80)

The filesystem checks bear on the patch-script path only, so the
filesystem is the triple of facts the code can observe or change about
that path.  The thread pool dispatches one `_process_repository` task
per configured repository; the embedding runs them in submission order
(the claims settled here — result counts, the aggregate conjunction, the
preflight short-circuit — do not depend on completion order, and with
`exit_on_error = False` every future is awaited). -/

/-- The patch-script path as the orchestrator sees it: whether it
exists, whether it is a regular file, and whether its executable bit is
set. -/
structure ScriptFS where
  script_exists : Bool
  script_is_file : Bool
  script_executable : Bool

/-- Lines 51-75 flattened: run one repository after another, combining
the per-repository booleans into `all_success`; under `exit_on_error` a
failure stops the remaining repositories and prints the exit notice. -/
def runRepos (cfg : SeriesConfig) (envs : Nat → RepoEnv)
    (exit_on_error : Bool) (total : Nat) : Nat → List String → List Event × Bool
  | _, [] => ([], true)
  | i, url :: rest =>
    let p := process_repository cfg (envs i) url (i + 1) total cfg.commands
    if p.2 then
      let r := runRepos cfg envs exit_on_error total (i + 1) rest
      (p.1 ++ r.1, r.2)
    else if exit_on_error then
      (p.1 ++ [Event.print ("\nExiting due to error (--exit-on-error flag)")], false)
    else
      let r := runRepos cfg envs exit_on_error total (i + 1) rest
      (p.1 ++ r.1, false)

/-- Embedding of `PatchExecutor.execute`: workspace creation and header,
the preflight checks on the patch-script path (missing or non-regular →
error message and `False` before any task starts; otherwise
`chmod 0o755`, which sets the executable bit rather than testing it),
then one task per repository and the summary. -/
def execute (cfg : SeriesConfig) (fs : ScriptFS) (envs : Nat → RepoEnv)
    (exit_on_error : Bool) : List Event × Bool :=
  withEv Event.header
    (if !fs.script_exists then
      ([Event.print ("Error: Patch script not found: " ++ cfg.commands)], false)
     else if !fs.script_is_file then
      ([Event.print ("Error: Patch script is not a file: " ++ cfg.commands)], false)
     else
      let r := runRepos cfg envs exit_on_error cfg.projects.length 0 cfg.projects
      (Event.chmodScript :: (r.1 ++ [Event.summary]), r.2))

/-- The `chmod(0o755)` on line 45: its effect on the script path. -/
def afterChmod (fs : ScriptFS) : ScriptFS :=
  { fs with script_executable := true }

/-! ## Trace observations -/

/-- The `WorkflowResult` records in a trace: every `add_result` call, as
`(repo, status, details)` triples in emission order. -/
def resultsOf : List Event → List (String × String × String)
  | [] => []
  | Event.result n s d :: rest => (n, s, d) :: resultsOf rest
  | _ :: rest => resultsOf rest

/-- The adapter operations (and hence subprocess invocations) in a
trace. -/
def opsOf : List Event → List OpKind
  | [] => []
  | Event.op k :: rest => k :: opsOf rest
  | _ :: rest => opsOf rest

/-- The `print_repo_start` banners in a trace — one per started
repository task. -/
def startsOf : List Event → List String
  | [] => []
  | Event.repoStart _ _ n :: rest => n :: startsOf rest
  | _ :: rest => startsOf rest

/-- A result status that `execute` counts as success: the repository
either succeeded or was skipped. -/
def okOutcome (s : String) : Bool :=
  s == "succeeded" || s == "skipped"

/-! ## Occurrence predicates (for the template-substitution claims) -/

/-- `pat` occurs as a contiguous subsequence of `s` (Boolean). -/
def hasOccurrence (pat : List Char) : List Char → Bool
  | [] => pat.isEmpty
  | c :: rest => pat.isPrefixOf (c :: rest) || hasOccurrence pat rest

/-- Some occurrence of `pat` starts inside `p` when `p` is followed by
`tail` (Boolean scan over the suffixes of `p`). -/
def scanBoundary (pat tail : List Char) : List Char → Bool
  | [] => false
  | c :: rest => pat.isPrefixOf (c :: (rest ++ tail)) || scanBoundary pat tail rest

/-- Whether an event is a reporter step whose message contains `pat`. -/
def stepMentions (pat : String) : Event → Bool
  | Event.step _ m => hasOccurrence pat.data m.data
  | _ => false

/-! ## Derived trace predicates for the workflow -/

/-- Every execution of the per-repository workflow emits exactly one
`WorkflowResult` for the repository, and its boolean return value is
exactly "the recorded outcome counts as success". -/
def PhaseOut (name : String) (p : List Event × Bool) : Prop :=
  ∃ st d, resultsOf p.1 = [(name, st, d)] ∧ p.2 = okOutcome st

/-- All steps after the test step succeed: staging, committing, review
submission, every post-command, and the branch restoration. -/
def laterStepsOk (env : RepoEnv) : Prop :=
  env.stageRes = Except.ok () ∧ (∃ h, env.commitRes = Except.ok h) ∧
  env.reviewRes = Except.ok () ∧ (∀ i, (env.postRes i).1 = true) ∧
  env.restoreRes = Except.ok ()

/-! ## The dry-run trace, phase by phase

The lists below name what each phase of `_process_repository` emits when
`dry_run` is set; the dry-run theorem proves the workflow equal to this
trace.  Review setup (lines 101-104), change detection (lines 178-183)
and branch restoration (lines 255-269, whose guard needs the
never-recorded `original_branch`) contribute nothing. -/

/-- Dry-run events of the post-command loop and the terminal result. -/
def dryPostEvents (cfg : SeriesConfig) (name : String) : List Event :=
  cfg.post_commands.map
    (fun c => Event.step RStatus.INFO ("[DRY RUN] Would run post-command: " ++ c)) ++
  [Event.result name "succeeded" ""]

/-- Dry-run events from the review step on. -/
def dryReviewEvents (cfg : SeriesConfig) (name : String) : List Event :=
  (if cfg.review then
    [Event.step RStatus.INFO ("[DRY RUN] Would submit for review")]
   else []) ++ dryPostEvents cfg name

/-- Dry-run events from the commit step on. -/
def dryCommitEvents (cfg : SeriesConfig) (name : String) : List Event :=
  if cfg.commit then
    Event.step RStatus.INFO ("[DRY RUN] Would commit changes") ::
      dryReviewEvents cfg name
  else dryPostEvents cfg name

/-- Dry-run events from the test step on. -/
def dryTestsEvents (cfg : SeriesConfig) (name : String) : List Event :=
  (if cfg.run_tests then
    [Event.step RStatus.INFO ("[DRY RUN] Would run tests: " ++ cfg.test_command)]
   else []) ++ dryCommitEvents cfg name

/-- Dry-run events from the patch step on (change detection is skipped
entirely in dry-run mode). -/
def dryPatchEvents (cfg : SeriesConfig) (name script : String) : List Event :=
  Event.step RStatus.INFO ("[DRY RUN] Would execute patch script: " ++ script) ::
    dryTestsEvents cfg name

/-- Dry-run events from the pre-command loop on. -/
def dryPreEvents (cfg : SeriesConfig) (name script : String) : List Event :=
  cfg.pre_commands.map
    (fun c => Event.step RStatus.INFO ("[DRY RUN] Would run pre-command: " ++ c)) ++
  dryPatchEvents cfg name script

/-- Dry-run events from the branch-switch step on. -/
def dryBranchEvents (cfg : SeriesConfig) (name script : String) : List Event :=
  (if pyTruthy cfg.branch then
    [Event.step RStatus.INFO
      ("[DRY RUN] Would switch to branch '" ++ cfg.branch.getD "" ++ "'")]
   else []) ++ dryPreEvents cfg name script

/-- The whole dry-run trace of one repository's workflow, from the clone
narration to the terminal `succeeded` result (review setup is skipped
without narration). -/
def dryRunEvents (cfg : SeriesConfig) (name script : String) : List Event :=
  Event.step RStatus.INFO ("[DRY RUN] Would clone repository") ::
    dryBranchEvents cfg name script

/-! ## Concrete instances used by witnesses and counterexamples -/

/-- A full-featured configuration in dry-run mode: one repository,
branch switching, pre/post commands, tests, commit and review all
enabled. -/
def cfgDryFull : SeriesConfig :=
  { projects := ["https://example.com/org/widget.git"]
    commands := "/tmp/patch.sh"
    commit_msg := "Update \x7b\x7b project_name \x7d\x7d"
    topic := "topic-x"
    commit := true
    review := true
    run_tests := true
    tests_blocking := false
    test_command := "tox"
    branch := some "feature"
    create_branch := false
    stay_on_branch := false
    pre_commands := ["echo pre"]
    post_commands := ["echo post"]
    continue_on_error := false
    dry_run := true }

/-- The same configuration outside dry-run mode. -/
def cfgRealFull : SeriesConfig :=
  { cfgDryFull with dry_run := false }

/-- The same configuration with blocking tests. -/
def cfgRealBlocking : SeriesConfig :=
  { cfgRealFull with tests_blocking := true }

/-- The real-run configuration without branch switching: the only
`has_changes` adapter call left in its workflow is the change-detection
step (executor.py:180). -/
def cfgRealNoBranch : SeriesConfig :=
  { cfgRealFull with branch := none }

/-- An environment in which every adapter call succeeds: the clean
happy-path repository. -/
def envAllOk : RepoEnv :=
  { cloneRes := Except.ok ()
    setupRes := Except.ok ()
    currentBranchRes := Except.ok ("main")
    hasUncommittedAtSwitch := Except.ok false
    branchExistsRes := Except.ok true
    checkoutRes := Except.ok ()
    createRes := Except.ok ()
    preRes := fun _ => (true, "", "")
    patchRes := (true, "", "")
    hasChangesAfterPatch := Except.ok true
    testRes := (true, "", "")
    stageRes := Except.ok ()
    commitRes := Except.ok ("abc1234")
    reviewRes := Except.ok ()
    postRes := fun _ => (true, "", "")
    restoreRes := Except.ok () }

/-- The happy-path environment, except that the test command fails. -/
def envTestFail : RepoEnv :=
  { envAllOk with testRes := (false, "", "2 tests failed") }

/-- The happy-path environment, except that the patch leaves the working
tree unchanged. -/
def envNoChanges : RepoEnv :=
  { envAllOk with hasChangesAfterPatch := Except.ok false }

/-- A patch-script path that exists, is a regular file, and is
executable. -/
def fsOk : ScriptFS := { script_exists := true, script_is_file := true, script_executable := true }

/-- A patch-script path that exists and is a regular file but is not
executable. -/
def fsNotExec : ScriptFS := { script_exists := true, script_is_file := true, script_executable := false }

/-- A missing patch-script path. -/
def fsMissing : ScriptFS := { script_exists := false, script_is_file := false, script_executable := false }

/-- A patch-script path that exists but is not a regular file. -/
def fsNotFile : ScriptFS := { script_exists := true, script_is_file := false, script_executable := false }

/-- A ref store with a local branch `main` and a remote-only branch
`dev`. -/
def refDbExample : RefDb :=
  { heads := fun n => n == "main"
    remotes := fun n => n == "dev" || n == "main" }

/-! # Proofs

First the bookkeeping lemmas about trace observations, then the
per-phase facts about the workflow, then the settled claims. -/

theorem resultsOf_append (a b : List Event) :
    resultsOf (a ++ b) = resultsOf a ++ resultsOf b := by
  induction a with
  | nil => rfl
  | cons e rest ih => cases e <;> simp [resultsOf, ih]

theorem opsOf_append (a b : List Event) :
    opsOf (a ++ b) = opsOf a ++ opsOf b := by
  induction a with
  | nil => rfl
  | cons e rest ih => cases e <;> simp [opsOf, ih]

theorem startsOf_append (a b : List Event) :
    startsOf (a ++ b) = startsOf a ++ startsOf b := by
  induction a with
  | nil => rfl
  | cons e rest ih => cases e <;> simp [startsOf, ih]

theorem resultsOf_eq_nil_of_steps (xs : List Event)
    (h : ∀ e ∈ xs, ∀ n s d, e ≠ Event.result n s d) : resultsOf xs = [] := by
  induction xs with
  | nil => rfl
  | cons e rest ih =>
    cases e with
    | result n s d => exact absurd rfl (h _ (List.mem_cons_self _ _) n s d)
    | _ =>
      simp only [resultsOf]
      exact ih (fun e he => h e (List.mem_cons_of_mem _ he))

theorem resultsOf_map_steps (xs : List String) (f : String → Event)
    (hf : ∀ s, ∃ st m, f s = Event.step st m) : resultsOf (xs.map f) = [] := by
  induction xs with
  | nil => rfl
  | cons x rest ih =>
    obtain ⟨st, m, h⟩ := hf x
    simp [List.map, h, resultsOf, ih]

theorem phaseOut_fail (name msg : String) : PhaseOut name (failResult name msg) :=
  ⟨"failed", msg, rfl, rfl⟩

theorem phaseOut_succeed (name : String) : PhaseOut name (succeedPhase name) :=
  ⟨"succeeded", "", rfl, rfl⟩

theorem phaseOut_withEv_step {name : String} {p : List Event × Bool}
    (st : RStatus) (m : String) (h : PhaseOut name p) :
    PhaseOut name (withEv (Event.step st m) p) := by
  obtain ⟨s, d, h1, h2⟩ := h
  exact ⟨s, d, by simpa [withEv, resultsOf] using h1, h2⟩

theorem phaseOut_withEv_op {name : String} {p : List Event × Bool}
    (k : OpKind) (h : PhaseOut name p) :
    PhaseOut name (withEv (Event.op k) p) := by
  obtain ⟨s, d, h1, h2⟩ := h
  exact ⟨s, d, by simpa [withEv, resultsOf] using h1, h2⟩

theorem phaseOut_withEvs {name : String} {p : List Event × Bool}
    (es : List Event) (hes : resultsOf es = []) (h : PhaseOut name p) :
    PhaseOut name (withEvs es p) := by
  obtain ⟨s, d, h1, h2⟩ := h
  exact ⟨s, d, by simp [withEvs, resultsOf_append, hes, h1], h2⟩

theorem executeCommand_snd (cfg : SeriesConfig) (r : Bool × String × String)
    (command ctype : String) : (executeCommand cfg r command ctype).2 = r.1 := by
  unfold executeCommand
  cases r.1 <;> simp

theorem resultsOf_executeCommand (cfg : SeriesConfig) (r : Bool × String × String)
    (command ctype : String) : resultsOf (executeCommand cfg r command ctype).1 = [] := by
  have hgen : ∀ (xs : List Event) (n : Nat),
      (∀ e ∈ xs, ∀ a b c, e ≠ Event.result a b c) → resultsOf (xs.take n) = [] :=
    fun xs n h =>
      resultsOf_eq_nil_of_steps _ (fun e he => h e (List.mem_of_mem_take he))
  have h1 : ∀ z : String,
      resultsOf (List.take 10
        ((splitLines z).map (fun l => Event.step RStatus.INFO l))) = [] := by
    intro z
    apply hgen
    intro e he a b c
    obtain ⟨l, _, hl⟩ := List.mem_map.mp he
    subst hl
    simp
  have h2 : ∀ z : String,
      resultsOf (List.take 10
        ((splitLines z).map (fun l => Event.step RStatus.INFO ("Error: " ++ l)))) = [] := by
    intro z
    apply hgen
    intro e he a b c
    obtain ⟨l, _, hl⟩ := List.mem_map.mp he
    subst hl
    simp
  unfold executeCommand
  split <;> simp only [resultsOf_append, resultsOf] <;> split_ifs <;>
    simp [resultsOf, resultsOf_append, h1, h2]

theorem phaseOut_restore (cfg : SeriesConfig) (env : RepoEnv) (name : String)
    (orig : Option String) : PhaseOut name (restorePhase cfg env name orig) := by
  unfold restorePhase
  split
  · split
    · exact phaseOut_withEv_step _ _ (phaseOut_succeed name)
    · cases env.restoreRes with
      | error e => exact phaseOut_withEv_op _ (phaseOut_fail name e)
      | ok u =>
        exact phaseOut_withEv_op _ (phaseOut_withEv_step _ _ (phaseOut_succeed name))
  · exact phaseOut_succeed name

theorem phaseOut_postLoop (cfg : SeriesConfig) (env : RepoEnv) (name : String)
    (orig : Option String) : ∀ (l : List String) (i : Nat),
    PhaseOut name (postLoop cfg env name orig i l) := by
  intro l
  induction l with
  | nil => intro i; exact phaseOut_restore cfg env name orig
  | cons cmd rest ih =>
    intro i
    unfold postLoop
    split
    · exact phaseOut_withEv_step _ _ (ih (i + 1))
    · dsimp only
      split
      · exact phaseOut_withEvs _ (resultsOf_executeCommand _ _ _ _) (ih (i + 1))
      · split
        · exact phaseOut_withEvs _ (resultsOf_executeCommand _ _ _ _) (ih (i + 1))
        · exact phaseOut_withEvs _ (resultsOf_executeCommand _ _ _ _) ⟨"failed", _, rfl, rfl⟩

theorem phaseOut_review (cfg : SeriesConfig) (env : RepoEnv) (name : String)
    (orig : Option String) : PhaseOut name (reviewPhase cfg env name orig) := by
  unfold reviewPhase
  split
  · split
    · exact phaseOut_withEv_step _ _ (phaseOut_postLoop cfg env name orig _ _)
    · cases env.reviewRes with
      | error e => exact phaseOut_withEv_op _ (phaseOut_fail name e)
      | ok u =>
        exact phaseOut_withEv_op _
          (phaseOut_withEv_step _ _ (phaseOut_postLoop cfg env name orig _ _))
  · exact phaseOut_postLoop cfg env name orig _ _

theorem phaseOut_commit (cfg : SeriesConfig) (env : RepoEnv) (name : String)
    (orig : Option String) : PhaseOut name (commitPhase cfg env name orig) := by
  unfold commitPhase
  split
  · split
    · exact phaseOut_withEv_step _ _ (phaseOut_review cfg env name orig)
    · cases env.stageRes with
      | error e => exact phaseOut_withEv_op _ (phaseOut_fail name e)
      | ok u =>
        cases env.commitRes with
        | error e =>
          exact phaseOut_withEv_op _ (phaseOut_withEv_op _ (phaseOut_fail name e))
        | ok h =>
          exact phaseOut_withEv_op _ (phaseOut_withEv_op _
            (phaseOut_withEv_step _ _ (phaseOut_review cfg env name orig)))
  · exact phaseOut_postLoop cfg env name orig _ _

theorem phaseOut_tests (cfg : SeriesConfig) (env : RepoEnv) (name : String)
    (orig : Option String) : PhaseOut name (testsPhase cfg env name orig) := by
  unfold testsPhase
  split
  · split
    · exact phaseOut_withEv_step _ _ (phaseOut_commit cfg env name orig)
    · split
      · exact phaseOut_withEvs _ rfl
          (phaseOut_withEv_step _ _ (phaseOut_commit cfg env name orig))
      · split
        · exact phaseOut_withEvs _ rfl
            (phaseOut_withEv_step _ _ ⟨"failed", _, rfl, rfl⟩)
        · exact phaseOut_withEvs _ rfl (phaseOut_withEv_step _ _
            (phaseOut_withEv_step _ _ (phaseOut_commit cfg env name orig)))
  · exact phaseOut_commit cfg env name orig

theorem phaseOut_change (cfg : SeriesConfig) (env : RepoEnv) (name : String)
    (orig : Option String) : PhaseOut name (changePhase cfg env name orig) := by
  unfold changePhase
  split
  · cases env.hasChangesAfterPatch with
    | error e => exact phaseOut_withEv_op _ (phaseOut_fail name e)
    | ok b =>
      cases b with
      | false => exact phaseOut_withEv_op _ ⟨"skipped", "No changes", rfl, rfl⟩
      | true => exact phaseOut_withEv_op _ (phaseOut_tests cfg env name orig)
  · exact phaseOut_tests cfg env name orig

theorem phaseOut_patch (cfg : SeriesConfig) (env : RepoEnv) (name script : String)
    (orig : Option String) : PhaseOut name (patchPhase cfg env name script orig) := by
  unfold patchPhase
  split
  · exact phaseOut_withEv_step _ _ (phaseOut_change cfg env name orig)
  · split
    · apply phaseOut_withEv_op
      split
      · exact ⟨"failed", "Patch script failed", rfl, rfl⟩
      · exact ⟨"failed", "Patch script failed", rfl, rfl⟩
    · exact phaseOut_withEv_op _
        (phaseOut_withEv_step _ _ (phaseOut_change cfg env name orig))

theorem phaseOut_preLoop (cfg : SeriesConfig) (env : RepoEnv) (name script : String)
    (orig : Option String) : ∀ (l : List String) (i : Nat),
    PhaseOut name (preLoop cfg env name script orig i l) := by
  intro l
  induction l with
  | nil => intro i; exact phaseOut_patch cfg env name script orig
  | cons cmd rest ih =>
    intro i
    unfold preLoop
    split
    · exact phaseOut_withEv_step _ _ (ih (i + 1))
    · dsimp only
      split
      · exact phaseOut_withEvs _ (resultsOf_executeCommand _ _ _ _) (ih (i + 1))
      · split
        · exact phaseOut_withEvs _ (resultsOf_executeCommand _ _ _ _) (ih (i + 1))
        · exact phaseOut_withEvs _ (resultsOf_executeCommand _ _ _ _) ⟨"failed", _, rfl, rfl⟩

theorem phaseOut_branch (cfg : SeriesConfig) (env : RepoEnv) (name script : String) :
    PhaseOut name (branchPhase cfg env name script) := by
  unfold branchPhase
  split
  · dsimp only
    split
    · exact phaseOut_withEv_step _ _ (phaseOut_preLoop cfg env name script none _ _)
    · apply phaseOut_withEv_op
      split
      · exact phaseOut_fail name _
      · apply phaseOut_withEvs
        · split <;> rfl
        · apply phaseOut_withEv_op
          split
          · exact phaseOut_fail name _
          · split
            · exact phaseOut_fail name _
            · apply phaseOut_withEv_op
              split
              · exact phaseOut_fail name _
              · split
                · apply phaseOut_withEv_op
                  split
                  · exact phaseOut_fail name _
                  · exact phaseOut_withEv_step _ _
                      (phaseOut_preLoop cfg env name script (some _) _ _)
                · split
                  · apply phaseOut_withEv_op
                    split
                    · exact phaseOut_fail name _
                    · exact phaseOut_withEv_step _ _
                        (phaseOut_preLoop cfg env name script (some _) _ _)
                  · exact phaseOut_fail name _
  · exact phaseOut_preLoop cfg env name script none _ _

theorem phaseOut_setup (cfg : SeriesConfig) (env : RepoEnv) (name script : String) :
    PhaseOut name (setupPhase cfg env name script) := by
  unfold setupPhase
  split
  · cases env.setupRes with
    | error e => exact phaseOut_withEv_op _ (phaseOut_fail name e)
    | ok u =>
      exact phaseOut_withEv_op _
        (phaseOut_withEv_step _ _ (phaseOut_branch cfg env name script))
  · exact phaseOut_branch cfg env name script

theorem phaseOut_clone (cfg : SeriesConfig) (env : RepoEnv) (name script : String) :
    PhaseOut name (clonePhase cfg env name script) := by
  unfold clonePhase
  split
  · exact phaseOut_withEv_step _ _ (phaseOut_setup cfg env name script)
  · cases env.cloneRes with
    | error e => exact phaseOut_withEv_op _ (phaseOut_fail name e)
    | ok u =>
      exact phaseOut_withEv_op _
        (phaseOut_withEv_step _ _ (phaseOut_setup cfg env name script))

theorem phaseOut_process (cfg : SeriesConfig) (env : RepoEnv) (url : String)
    (index total : Nat) (script : String) :
    PhaseOut (extract_repo_name url) (process_repository cfg env url index total script) := by
  unfold process_repository
  obtain ⟨s, d, h1, h2⟩ := phaseOut_clone cfg env (extract_repo_name url) script
  exact ⟨s, d, by simpa [withEv, resultsOf] using h1, h2⟩

theorem runRepos_spec (cfg : SeriesConfig) (envs : Nat → RepoEnv) (total : Nat) :
    ∀ (l : List String) (i : Nat),
    (resultsOf (runRepos cfg envs false total i l).1).length = l.length ∧
    (runRepos cfg envs false total i l).2 =
      (resultsOf (runRepos cfg envs false total i l).1).all
        (fun r => okOutcome r.2.1) := by
  intro l
  induction l with
  | nil => intro i; exact ⟨rfl, rfl⟩
  | cons url rest ih =>
    intro i
    unfold runRepos
    dsimp only
    obtain ⟨s, d, hres, hb⟩ :=
      phaseOut_process cfg (envs i) url (i + 1) total cfg.commands
    obtain ⟨ihlen, ihall⟩ := ih (i + 1)
    split
    · rename_i hp2
      rw [hb] at hp2
      refine ⟨by simp [resultsOf_append, hres, ihlen], ?_⟩
      simp [resultsOf_append, hres, List.all_cons, hp2, ihall]
    · rename_i hp2
      rw [hb] at hp2
      have hfalse : okOutcome s = false := Bool.not_eq_true _ |>.mp hp2
      simp only [Bool.false_eq_true, if_false]
      refine ⟨by simp [resultsOf_append, hres, ihlen], ?_⟩
      simp [resultsOf_append, hres, List.all_cons, hfalse]

/-- C1: with a non-empty repository list and the preflight checks
passing, `execute` with `exit_on_error = False` records exactly one
`WorkflowResult` per configured repository, and returns `True` iff every
recorded outcome is `succeeded` or `skipped`. -/
theorem C1_one_result_per_repo_and_verdict (cfg : SeriesConfig) (fs : ScriptFS)
    (envs : Nat → RepoEnv) (_hne : cfg.projects ≠ [])
    (hex : fs.script_exists = true) (hfile : fs.script_is_file = true) :
    (resultsOf (execute cfg fs envs false).1).length = cfg.projects.length ∧
    ((execute cfg fs envs false).2 = true ↔
      ∀ r ∈ resultsOf (execute cfg fs envs false).1,
        r.2.1 = "succeeded" ∨ r.2.1 = "skipped") := by
  obtain ⟨hlen, hall⟩ := runRepos_spec cfg envs cfg.projects.length cfg.projects 0
  unfold execute
  rw [hex, hfile]
  simp only [Bool.not_true, Bool.false_eq_true, if_false]
  dsimp only [withEv]
  simp only [resultsOf, resultsOf_append]
  constructor
  · simpa using hlen
  · rw [hall]
    simp [List.all_eq_true, okOutcome, beq_iff_eq]

/-- Witness for C1 at a concrete one-repository dry-run configuration. -/
theorem C1_one_result_per_repo_and_verdict_witness :
    (resultsOf (execute cfgDryFull fsOk (fun _ => envAllOk) false).1).length =
      cfgDryFull.projects.length ∧
    ((execute cfgDryFull fsOk (fun _ => envAllOk) false).2 = true ↔
      ∀ r ∈ resultsOf (execute cfgDryFull fsOk (fun _ => envAllOk) false).1,
        r.2.1 = "succeeded" ∨ r.2.1 = "skipped") :=
  C1_one_result_per_repo_and_verdict cfgDryFull fsOk (fun _ => envAllOk)
    (by decide) rfl rfl

/-- C2 (amended): a workflow that reaches change detection outside
dry-run and finds no uncommitted changes records `skipped` with detail
"No changes" (capital N in the code), returns success, and performs no
further adapter operation beyond the `git status` check itself — no test
run, no staging or commit, no review submission, no post-command, no
branch restoration. -/
theorem C2_no_changes_short_circuit (cfg : SeriesConfig) (env : RepoEnv)
    (name : String) (orig : Option String) (hdry : cfg.dry_run = false)
    (hnc : env.hasChangesAfterPatch = Except.ok false) :
    changePhase cfg env name orig =
      ([Event.op OpKind.hasChangesOp,
        Event.step RStatus.INFO ("No changes detected, skipping"),
        Event.result name "skipped" "No changes"], true) ∧
    opsOf (changePhase cfg env name orig).1 = [OpKind.hasChangesOp] ∧
    resultsOf (changePhase cfg env name orig).1 = [(name, "skipped", "No changes")] ∧
    (changePhase cfg env name orig).2 = true := by
  have h : changePhase cfg env name orig =
      ([Event.op OpKind.hasChangesOp,
        Event.step RStatus.INFO ("No changes detected, skipping"),
        Event.result name "skipped" "No changes"], true) := by
    unfold changePhase
    rw [hdry, hnc]
    rfl
  refine ⟨h, ?_, ?_, ?_⟩ <;> rw [h] <;> rfl

/-- Witness for C2 at the concrete no-changes environment. -/
theorem C2_no_changes_short_circuit_witness :
    changePhase cfgRealFull envNoChanges ("widget") none =
      ([Event.op OpKind.hasChangesOp,
        Event.step RStatus.INFO ("No changes detected, skipping"),
        Event.result ("widget") "skipped" "No changes"], true) ∧
    opsOf (changePhase cfgRealFull envNoChanges ("widget") none).1 =
      [OpKind.hasChangesOp] ∧
    resultsOf (changePhase cfgRealFull envNoChanges ("widget") none).1 =
      [("widget", "skipped", "No changes")] ∧
    (changePhase cfgRealFull envNoChanges ("widget") none).2 = true :=
  C2_no_changes_short_circuit cfgRealFull envNoChanges ("widget") none rfl rfl

/-- C2, counterexample to the claim as stated: the recorded detail
string is "No changes", not the claimed "no changes". -/
theorem C2_detail_capitalization_counterexample :
    resultsOf (changePhase cfgRealFull envNoChanges ("widget") none).1 =
      [("widget", "skipped", "No changes")] ∧
    ("No changes" ≠ "no changes") := by
  constructor
  · decide
  · decide

/-- C3 (amended): the preflight verifies only that the patch-command
path exists and is a regular file; on either failure `execute` prints
the error and returns `False` with no repository task started (no
events beyond the header and the message, in particular no repository
start, no adapter operation, no result).  No executability check is
made — the orchestrator instead marks the script executable
(`chmod 0o755`) before dispatch. -/
theorem C3_preflight_short_circuit (cfg : SeriesConfig) (fs : ScriptFS)
    (envs : Nat → RepoEnv) (exit_on_error : Bool) :
    (fs.script_exists = false →
      execute cfg fs envs exit_on_error =
        ([Event.header,
          Event.print ("Error: Patch script not found: " ++ cfg.commands)], false)) ∧
    (fs.script_exists = true → fs.script_is_file = false →
      execute cfg fs envs exit_on_error =
        ([Event.header,
          Event.print ("Error: Patch script is not a file: " ++ cfg.commands)], false)) := by
  constructor
  · intro h
    unfold execute
    rw [h]
    rfl
  · intro h1 h2
    unfold execute
    rw [h1, h2]
    rfl

/-- Witness for C3 at the two concrete failing filesystems. -/
theorem C3_preflight_short_circuit_witness :
    execute cfgRealFull fsMissing (fun _ => envAllOk) false =
      ([Event.header,
        Event.print ("Error: Patch script not found: " ++ cfgRealFull.commands)], false) ∧
    execute cfgRealFull fsNotFile (fun _ => envAllOk) false =
      ([Event.header,
        Event.print ("Error: Patch script is not a file: " ++ cfgRealFull.commands)], false) :=
  ⟨(C3_preflight_short_circuit cfgRealFull fsMissing (fun _ => envAllOk) false).1 rfl,
   (C3_preflight_short_circuit cfgRealFull fsNotFile (fun _ => envAllOk) false).2 rfl rfl⟩

/-- C3, counterexample to the claim as stated: for a patch script that
exists and is a regular file but is *not* executable, `execute` does not
return failure — it starts the repository task (a repository start
banner is emitted) and here returns `True`. -/
theorem C3_no_executability_check_counterexample :
    fsNotExec.script_executable = false ∧
    (execute cfgDryFull fsNotExec (fun _ => envAllOk) false).2 = true ∧
    startsOf (execute cfgDryFull fsNotExec (fun _ => envAllOk) false).1 = ["widget"] := by
  refine ⟨rfl, ?_, ?_⟩ <;> decide

theorem okOut_withEv {p : List Event × Bool} {R : List (String × String × String)}
    {b : Bool} (e : Event) (he : resultsOf [e] = [])
    (h : resultsOf p.1 = R ∧ p.2 = b) :
    resultsOf (withEv e p).1 = R ∧ (withEv e p).2 = b := by
  obtain ⟨h1, h2⟩ := h
  refine ⟨?_, h2⟩
  show resultsOf (e :: p.1) = R
  rw [show (e :: p.1) = [e] ++ p.1 from rfl, resultsOf_append, he]
  simpa using h1

theorem okOut_withEvs {p : List Event × Bool} {R : List (String × String × String)}
    {b : Bool} (es : List Event) (hes : resultsOf es = [])
    (h : resultsOf p.1 = R ∧ p.2 = b) :
    resultsOf (withEvs es p).1 = R ∧ (withEvs es p).2 = b := by
  obtain ⟨h1, h2⟩ := h
  refine ⟨?_, h2⟩
  show resultsOf (es ++ p.1) = R
  rw [resultsOf_append, hes]
  simpa using h1

theorem restore_ok_out (cfg : SeriesConfig) (env : RepoEnv) (name : String)
    (orig : Option String) (h : env.restoreRes = Except.ok ()) :
    resultsOf (restorePhase cfg env name orig).1 = [(name, "succeeded", "")] ∧
    (restorePhase cfg env name orig).2 = true := by
  unfold restorePhase
  split
  · split
    · exact ⟨rfl, rfl⟩
    · rw [h]
      exact ⟨rfl, rfl⟩
  · exact ⟨rfl, rfl⟩

theorem postLoop_ok_out (cfg : SeriesConfig) (env : RepoEnv) (name : String)
    (orig : Option String) (hpost : ∀ i, (env.postRes i).1 = true)
    (hres : env.restoreRes = Except.ok ()) : ∀ (l : List String) (i : Nat),
    resultsOf (postLoop cfg env name orig i l).1 = [(name, "succeeded", "")] ∧
    (postLoop cfg env name orig i l).2 = true := by
  intro l
  induction l with
  | nil => intro i; exact restore_ok_out cfg env name orig hres
  | cons cmd rest ih =>
    intro i
    unfold postLoop
    split
    · exact okOut_withEv _ rfl (ih (i + 1))
    · dsimp only
      rw [executeCommand_snd, hpost i]
      simp only [if_true]
      exact okOut_withEvs _ (resultsOf_executeCommand _ _ _ _) (ih (i + 1))

theorem review_ok_out (cfg : SeriesConfig) (env : RepoEnv) (name : String)
    (orig : Option String) (hrev : env.reviewRes = Except.ok ())
    (hpost : ∀ i, (env.postRes i).1 = true) (hres : env.restoreRes = Except.ok ()) :
    resultsOf (reviewPhase cfg env name orig).1 = [(name, "succeeded", "")] ∧
    (reviewPhase cfg env name orig).2 = true := by
  unfold reviewPhase
  split
  · split
    · exact okOut_withEv _ rfl (postLoop_ok_out cfg env name orig hpost hres _ _)
    · rw [hrev]
      exact okOut_withEv _ rfl (okOut_withEv _ rfl
        (postLoop_ok_out cfg env name orig hpost hres _ _))
  · exact postLoop_ok_out cfg env name orig hpost hres _ _

theorem commit_ok_out (cfg : SeriesConfig) (env : RepoEnv) (name : String)
    (orig : Option String) (hstage : env.stageRes = Except.ok ())
    (hcommit : ∃ h, env.commitRes = Except.ok h)
    (hrev : env.reviewRes = Except.ok ())
    (hpost : ∀ i, (env.postRes i).1 = true) (hres : env.restoreRes = Except.ok ()) :
    resultsOf (commitPhase cfg env name orig).1 = [(name, "succeeded", "")] ∧
    (commitPhase cfg env name orig).2 = true := by
  unfold commitPhase
  split
  · split
    · exact okOut_withEv _ rfl (review_ok_out cfg env name orig hrev hpost hres)
    · obtain ⟨ch, hch⟩ := hcommit
      rw [hstage, hch]
      exact okOut_withEv _ rfl (okOut_withEv _ rfl (okOut_withEv _ rfl
        (review_ok_out cfg env name orig hrev hpost hres)))
  · exact postLoop_ok_out cfg env name orig hpost hres _ _

/-- C4: with tests enabled outside dry-run and a failing test command,
the workflow's outcome is terminal `failed` (return `False`) when
`tests_blocking` is set, and when `tests_blocking` is not set the
workflow continues and — provided every later step (staging, commit,
review, post-commands, branch restoration) succeeds — ends `succeeded`
with return `True`. -/
theorem C4_failing_tests_policy (cfg : SeriesConfig) (env : RepoEnv)
    (name : String) (orig : Option String) (hrun : cfg.run_tests = true)
    (hdry : cfg.dry_run = false) (hfail : env.testRes.1 = false) :
    (cfg.tests_blocking = true →
      resultsOf (testsPhase cfg env name orig).1 =
        [(name, "failed", "Tests failed (blocking)")] ∧
      (testsPhase cfg env name orig).2 = false) ∧
    (cfg.tests_blocking = false → laterStepsOk env →
      resultsOf (testsPhase cfg env name orig).1 = [(name, "succeeded", "")] ∧
      (testsPhase cfg env name orig).2 = true) := by
  constructor
  · intro hb
    constructor
    · unfold testsPhase
      rw [hrun, hdry, hfail, hb]
      rfl
    · unfold testsPhase
      rw [hrun, hdry, hfail, hb]
      rfl
  · intro hb hlater
    obtain ⟨hstage, hcommit, hrev, hpost, hres⟩ := hlater
    have hc := commit_ok_out cfg env name orig hstage hcommit hrev hpost hres
    unfold testsPhase
    rw [hrun, hdry, hfail, hb]
    exact okOut_withEvs _ rfl (okOut_withEv _ rfl (okOut_withEv _ rfl hc))

/-- Witness for C4 at a concrete failing-tests environment, in both the
blocking and the non-blocking configuration. -/
theorem C4_failing_tests_policy_witness :
    (resultsOf (testsPhase cfgRealBlocking envTestFail ("widget") (some "main")).1 =
      [("widget", "failed", "Tests failed (blocking)")] ∧
     (testsPhase cfgRealBlocking envTestFail ("widget") (some "main")).2 = false) ∧
    (resultsOf (testsPhase cfgRealFull envTestFail ("widget") (some "main")).1 =
      [("widget", "succeeded", "")] ∧
     (testsPhase cfgRealFull envTestFail ("widget") (some "main")).2 = true) :=
  ⟨(C4_failing_tests_policy cfgRealBlocking envTestFail ("widget") (some "main")
      rfl rfl rfl).1 rfl,
   (C4_failing_tests_policy cfgRealFull envTestFail ("widget") (some "main")
      rfl rfl rfl).2 rfl
     ⟨rfl, ⟨"abc1234", rfl⟩, rfl, fun _ => rfl, rfl⟩⟩

theorem opsOf_map_steps (xs : List String) (f : String → Event)
    (hf : ∀ s, ∃ st m, f s = Event.step st m) : opsOf (xs.map f) = [] := by
  induction xs with
  | nil => rfl
  | cons x rest ih =>
    obtain ⟨st, m, hx⟩ := hf x
    simp [List.map, hx, opsOf, ih]

theorem dry_restore (cfg : SeriesConfig) (env : RepoEnv) (name : String) :
    restorePhase cfg env name none = ([Event.result name "succeeded" ""], true) := by
  unfold restorePhase
  simp [pyTruthy, succeedPhase]

theorem dry_postLoop (cfg : SeriesConfig) (env : RepoEnv) (name : String)
    (h : cfg.dry_run = true) : ∀ (l : List String) (i : Nat),
    postLoop cfg env name none i l =
      (l.map (fun c => Event.step RStatus.INFO ("[DRY RUN] Would run post-command: " ++ c)) ++
        [Event.result name "succeeded" ""], true) := by
  intro l
  induction l with
  | nil => intro i; simpa using dry_restore cfg env name
  | cons cmd rest ih =>
    intro i
    unfold postLoop
    rw [h, if_pos rfl, withEv, ih (i + 1)]
    simp

theorem dry_review (cfg : SeriesConfig) (env : RepoEnv) (name : String)
    (h : cfg.dry_run = true) :
    reviewPhase cfg env name none = (dryReviewEvents cfg name, true) := by
  cases hr : cfg.review <;>
    simp [reviewPhase, dryReviewEvents, dryPostEvents, hr, h, withEv,
      dry_postLoop cfg env name h]

theorem dry_commit (cfg : SeriesConfig) (env : RepoEnv) (name : String)
    (h : cfg.dry_run = true) :
    commitPhase cfg env name none = (dryCommitEvents cfg name, true) := by
  cases hc : cfg.commit <;>
    simp [commitPhase, dryCommitEvents, dryPostEvents, hc, h, withEv,
      dry_review cfg env name h, dry_postLoop cfg env name h]

theorem dry_tests (cfg : SeriesConfig) (env : RepoEnv) (name : String)
    (h : cfg.dry_run = true) :
    testsPhase cfg env name none = (dryTestsEvents cfg name, true) := by
  cases ht : cfg.run_tests <;>
    simp [testsPhase, dryTestsEvents, ht, h, withEv, dry_commit cfg env name h]

theorem dry_change (cfg : SeriesConfig) (env : RepoEnv) (name : String)
    (h : cfg.dry_run = true) :
    changePhase cfg env name none = (dryTestsEvents cfg name, true) := by
  unfold changePhase
  rw [h]
  simpa using dry_tests cfg env name h

theorem dry_patch (cfg : SeriesConfig) (env : RepoEnv) (name script : String)
    (h : cfg.dry_run = true) :
    patchPhase cfg env name script none = (dryPatchEvents cfg name script, true) := by
  unfold patchPhase dryPatchEvents
  rw [h, if_pos rfl, withEv, dry_change cfg env name h]

theorem dry_preLoop (cfg : SeriesConfig) (env : RepoEnv) (name script : String)
    (h : cfg.dry_run = true) : ∀ (l : List String) (i : Nat),
    preLoop cfg env name script none i l =
      (l.map (fun c => Event.step RStatus.INFO ("[DRY RUN] Would run pre-command: " ++ c)) ++
        dryPatchEvents cfg name script, true) := by
  intro l
  induction l with
  | nil => intro i; simpa using dry_patch cfg env name script h
  | cons cmd rest ih =>
    intro i
    unfold preLoop
    rw [h, if_pos rfl, withEv, ih (i + 1)]
    simp

theorem dry_branch (cfg : SeriesConfig) (env : RepoEnv) (name script : String)
    (h : cfg.dry_run = true) :
    branchPhase cfg env name script = (dryBranchEvents cfg name script, true) := by
  cases hb : pyTruthy cfg.branch <;>
    simp [branchPhase, dryBranchEvents, dryPreEvents, hb, h, withEv,
      dry_preLoop cfg env name script h]

theorem dry_setup (cfg : SeriesConfig) (env : RepoEnv) (name script : String)
    (h : cfg.dry_run = true) :
    setupPhase cfg env name script = (dryBranchEvents cfg name script, true) := by
  unfold setupPhase
  rw [h]
  simpa using dry_branch cfg env name script h

theorem dry_clone (cfg : SeriesConfig) (env : RepoEnv) (name script : String)
    (h : cfg.dry_run = true) :
    clonePhase cfg env name script = (dryRunEvents cfg name script, true) := by
  unfold clonePhase dryRunEvents
  rw [h, if_pos rfl, withEv, dry_setup cfg env name script h]

theorem opsOf_dryRunEvents (cfg : SeriesConfig) (name script : String) :
    opsOf (dryRunEvents cfg name script) = [] := by
  unfold dryRunEvents dryBranchEvents dryPreEvents dryPatchEvents dryTestsEvents
    dryCommitEvents dryReviewEvents dryPostEvents
  have h1 := opsOf_map_steps cfg.pre_commands
    (fun c => Event.step RStatus.INFO ("[DRY RUN] Would run pre-command: " ++ c))
    (fun s => ⟨_, _, rfl⟩)
  have h2 := opsOf_map_steps cfg.post_commands
    (fun c => Event.step RStatus.INFO ("[DRY RUN] Would run post-command: " ++ c))
    (fun s => ⟨_, _, rfl⟩)
  split_ifs <;> simp [opsOf_append, opsOf, h1, h2]

theorem resultsOf_dryRunEvents (cfg : SeriesConfig) (name script : String) :
    resultsOf (dryRunEvents cfg name script) = [(name, "succeeded", "")] := by
  unfold dryRunEvents dryBranchEvents dryPreEvents dryPatchEvents dryTestsEvents
    dryCommitEvents dryReviewEvents dryPostEvents
  have h1 := resultsOf_map_steps cfg.pre_commands
    (fun c => Event.step RStatus.INFO ("[DRY RUN] Would run pre-command: " ++ c))
    (fun s => ⟨_, _, rfl⟩)
  have h2 := resultsOf_map_steps cfg.post_commands
    (fun c => Event.step RStatus.INFO ("[DRY RUN] Would run post-command: " ++ c))
    (fun s => ⟨_, _, rfl⟩)
  split_ifs <;> simp [resultsOf_append, resultsOf, h1, h2]

/-- C5 (amended): in dry-run mode the workflow performs no adapter
operation at all (so no subprocess is invoked), always terminates with
the single result `succeeded` and return value `True`, and its trace is
exactly the repository banner followed by `dryRunEvents` — one narration
per would-be step, *except* that review setup, change detection and
branch restoration are skipped silently (review setup and change
detection are guarded by `not dry_run` with no narration branch, and
the restore narration is unreachable because `original_branch` is only
recorded outside dry-run). -/
theorem C5_dry_run_trace (cfg : SeriesConfig) (env : RepoEnv) (url : String)
    (index total : Nat) (script : String) (h : cfg.dry_run = true) :
    process_repository cfg env url index total script =
      (Event.repoStart index total (extract_repo_name url) ::
        dryRunEvents cfg (extract_repo_name url) script, true) ∧
    opsOf (process_repository cfg env url index total script).1 = [] ∧
    resultsOf (process_repository cfg env url index total script).1 =
      [(extract_repo_name url, "succeeded", "")] := by
  have heq : process_repository cfg env url index total script =
      (Event.repoStart index total (extract_repo_name url) ::
        dryRunEvents cfg (extract_repo_name url) script, true) := by
    unfold process_repository
    rw [withEv, dry_clone cfg env (extract_repo_name url) script h]
  refine ⟨heq, ?_, ?_⟩ <;> rw [heq]
  · show opsOf (Event.repoStart index total (extract_repo_name url) ::
      dryRunEvents cfg (extract_repo_name url) script) = []
    rw [show opsOf (Event.repoStart index total (extract_repo_name url) ::
        dryRunEvents cfg (extract_repo_name url) script) =
        opsOf (dryRunEvents cfg (extract_repo_name url) script) from rfl,
      opsOf_dryRunEvents]
  · show resultsOf (Event.repoStart index total (extract_repo_name url) ::
      dryRunEvents cfg (extract_repo_name url) script) =
      [(extract_repo_name url, "succeeded", "")]
    rw [show resultsOf (Event.repoStart index total (extract_repo_name url) ::
        dryRunEvents cfg (extract_repo_name url) script) =
        resultsOf (dryRunEvents cfg (extract_repo_name url) script) from rfl,
      resultsOf_dryRunEvents]

/-- Witness for C5 at the concrete full-featured dry-run configuration. -/
theorem C5_dry_run_trace_witness :
    process_repository cfgDryFull envAllOk ("https://example.com/org/widget.git")
        1 1 ("/tmp/patch.sh") =
      (Event.repoStart 1 1 (extract_repo_name ("https://example.com/org/widget.git")) ::
        dryRunEvents cfgDryFull
          (extract_repo_name ("https://example.com/org/widget.git")) ("/tmp/patch.sh"), true) ∧
    opsOf (process_repository cfgDryFull envAllOk ("https://example.com/org/widget.git")
        1 1 ("/tmp/patch.sh")).1 = [] ∧
    resultsOf (process_repository cfgDryFull envAllOk ("https://example.com/org/widget.git")
        1 1 ("/tmp/patch.sh")).1 =
      [(extract_repo_name ("https://example.com/org/widget.git"), "succeeded", "")] :=
  C5_dry_run_trace cfgDryFull envAllOk ("https://example.com/org/widget.git")
    1 1 ("/tmp/patch.sh") rfl

/-- C5, counterexample to the claim as stated: in a real run the review
setup, the change detection (`git status`, shown on the branchless
configuration where it is the only `has_changes` call), and the branch
restoration are all performed — their adapter operations appear in the
trace — yet the corresponding dry-run trace contains no step mentioning
any of them (nothing about git-review, nothing about detecting changes,
nothing about returning to a branch) — so dry-run does not narrate
*every* would-be step. -/
theorem C5_missing_narrations_counterexample :
    OpKind.setupReviewOp ∈ opsOf (process_repository cfgRealFull envAllOk
      ("https://example.com/org/widget.git") 1 1 ("/tmp/patch.sh")).1 ∧
    OpKind.hasChangesOp ∈ opsOf (process_repository cfgRealNoBranch envAllOk
      ("https://example.com/org/widget.git") 1 1 ("/tmp/patch.sh")).1 ∧
    OpKind.checkoutOp "main" ∈ opsOf (process_repository cfgRealFull envAllOk
      ("https://example.com/org/widget.git") 1 1 ("/tmp/patch.sh")).1 ∧
    (process_repository cfgDryFull envAllOk
      ("https://example.com/org/widget.git") 1 1 ("/tmp/patch.sh")).1.all
        (fun e => !(stepMentions ("git-review") e)) = true ∧
    (process_repository cfgDryFull envAllOk
      ("https://example.com/org/widget.git") 1 1 ("/tmp/patch.sh")).1.all
        (fun e => !(stepMentions ("etect") e)) = true ∧
    (process_repository cfgDryFull envAllOk
      ("https://example.com/org/widget.git") 1 1 ("/tmp/patch.sh")).1.all
        (fun e => !(stepMentions ("turn to branch") e)) = true := by
  refine ⟨?_, ?_, ?_, ?_, ?_, ?_⟩ <;> decide

/-- C6: `run_command` bounds every command's wall-clock duration by the
fixed 600-second (= 10-minute) timeout; a command exceeding it yields
the normal result tuple `(False, "", "Command timed out after 10
minutes")` — success false, the diagnostic in the stderr slot — rather
than an exception. -/
theorem C6_run_command_timeout (b : CommandBehavior) (hraise : b.raises = none)
    (hdur : RUN_COMMAND_TIMEOUT < b.duration) :
    run_command b = (false, "", "Command timed out after 10 minutes") ∧
    RUN_COMMAND_TIMEOUT = 10 * 60 ∧
    ("Command timed out after 10 minutes" ≠ "") := by
  refine ⟨?_, rfl, by decide⟩
  unfold run_command
  rw [hraise]
  simp [hdur]

/-- Witness for C6 at a concrete 601-second command. -/
theorem C6_run_command_timeout_witness :
    run_command ⟨601, 0, "partial output", "partial err", none⟩ =
      (false, "", "Command timed out after 10 minutes") ∧
    RUN_COMMAND_TIMEOUT = 10 * 60 ∧
    ("Command timed out after 10 minutes" ≠ "") :=
  C6_run_command_timeout ⟨601, 0, "partial output", "partial err", none⟩ rfl (by decide)

/-- C8: repository short names derived from the three locator shapes
quoted by the specification are all exactly "widget". -/
theorem C8_extract_repo_name_examples :
    extract_repo_name ("https://example.com/org/widget.git") = "widget" ∧
    extract_repo_name ("git@example.com:org/widget.git") = "widget" ∧
    extract_repo_name ("https://example.com/org/widget.git/") = "widget" := by
  refine ⟨?_, ?_, ?_⟩ <;> decide

/-- C9: `branch_exists` is true when the local ref exists — and then
only `refs/heads/<name>` is queried, the remote namespace is never
consulted; it is also true when only the remote-tracking ref exists,
and false when neither exists. -/
theorem C9_branch_exists_cases (db : RefDb) (b : String) :
    (db.heads b = true →
      branch_exists db b = (true, ["refs/heads/" ++ b])) ∧
    (db.heads b = false → db.remotes b = true →
      branch_exists db b =
        (true, ["refs/heads/" ++ b, "refs/remotes/origin/" ++ b])) ∧
    (db.heads b = false → db.remotes b = false →
      branch_exists db b =
        (false, ["refs/heads/" ++ b, "refs/remotes/origin/" ++ b])) := by
  refine ⟨?_, ?_, ?_⟩
  · intro h
    unfold branch_exists
    rw [h]
    rfl
  · intro h1 h2
    unfold branch_exists
    rw [h1, h2]
    rfl
  · intro h1 h2
    unfold branch_exists
    rw [h1, h2]
    rfl

/-- Witness for C9 on a concrete ref store: `main` exists locally (and
also remotely, yet only the local ref is queried), `dev` exists only as
a remote-tracking ref, and `gone` exists nowhere. -/
theorem C9_branch_exists_cases_witness :
    branch_exists refDbExample ("main") = (true, ["refs/heads/main"]) ∧
    branch_exists refDbExample ("dev") =
      (true, ["refs/heads/dev", "refs/remotes/origin/dev"]) ∧
    branch_exists refDbExample ("gone") =
      (false, ["refs/heads/gone", "refs/remotes/origin/gone"]) :=
  ⟨(C9_branch_exists_cases refDbExample ("main")).1 (by decide),
   (C9_branch_exists_cases refDbExample ("dev")).2.1 (by decide) (by decide),
   (C9_branch_exists_cases refDbExample ("gone")).2.2 (by decide) (by decide)⟩

/-- C10: `run_command` always returns a `(success, stdout, stderr)`
triple; in particular any non-timeout exception raised by the attempted
execution is converted into the tuple `(False, "", str(e))` instead of
propagating. -/
theorem C10_run_command_never_raises (b : CommandBehavior) :
    (∃ ok out err, run_command b = (ok, out, err)) ∧
    (∀ msg, b.raises = some msg → run_command b = (false, "", msg)) := by
  constructor
  · exact ⟨(run_command b).1, (run_command b).2.1, (run_command b).2.2, rfl⟩
  · intro msg h
    unfold run_command
    rw [h]

/-- Witness for C10 at a concrete raising command (missing working
directory). -/
theorem C10_run_command_never_raises_witness :
    run_command ⟨0, 0, "", "", some "No such file or directory"⟩ =
      (false, "", "No such file or directory") :=
  (C10_run_command_never_raises ⟨0, 0, "", "", some "No such file or directory"⟩).2
    ("No such file or directory") rfl

theorem listReplaceF_fuel (pat rep : List Char) :
    ∀ (f : Nat) (s : List Char) (g : Nat), s.length ≤ f → s.length ≤ g →
    listReplaceF pat rep f s = listReplaceF pat rep g s := by
  intro f
  induction f with
  | zero =>
    intro s g h1 _
    have : s = [] := List.eq_nil_of_length_eq_zero (Nat.le_zero.mp h1)
    subst this
    simp [listReplaceF]
  | succ f ih =>
    intro s g h1 h2
    cases s with
    | nil => simp [listReplaceF]
    | cons c rest =>
      cases g with
      | zero => simp at h2
      | succ g' =>
        simp only [List.length_cons, Nat.succ_le_succ_iff] at h1 h2
        simp only [listReplaceF]
        by_cases hcond : (pat.isPrefixOf (c :: rest) && !pat.isEmpty) = true
        · rw [if_pos hcond, if_pos hcond]
          have hplen : 1 ≤ pat.length := by
            rcases pat with _ | ⟨x, xs⟩
            · simp [List.isEmpty] at hcond
            · simp
          congr 1
          apply ih
          · simp only [List.length_drop, List.length_cons]
            omega
          · simp only [List.length_drop, List.length_cons]
            omega
        · rw [if_neg hcond, if_neg hcond]
          congr 1
          exact ih rest g' h1 h2

theorem listReplaceF_no_occ (pat rep : List Char) :
    ∀ (s : List Char) (f : Nat), hasOccurrence pat s = false →
    listReplaceF pat rep f s = s := by
  intro s
  induction s with
  | nil => intro f _; simp [listReplaceF]
  | cons c rest ih =>
    intro f h
    rw [hasOccurrence, Bool.or_eq_false_iff] at h
    obtain ⟨h1, h2⟩ := h
    cases f with
    | zero => simp [listReplaceF]
    | succ f =>
      simp only [listReplaceF]
      rw [if_neg (by simp [h1]), ih f h2]

theorem listReplace_no_occ (pat rep : List Char) (s : List Char)
    (h : hasOccurrence pat s = false) : listReplace pat rep s = s :=
  listReplaceF_no_occ pat rep s s.length h

theorem isPrefixOf_append_self (pat q : List Char) :
    pat.isPrefixOf (pat ++ q) = true := by
  induction pat with
  | nil => simp [List.isPrefixOf]
  | cons p ps ih => simp [List.isPrefixOf, ih]

theorem listReplace_head_match (pat rep q : List Char) (hne : pat ≠ []) :
    listReplace pat rep (pat ++ q) = rep ++ listReplace pat rep q := by
  rcases pat with _ | ⟨p, ps⟩
  · exact absurd rfl hne
  unfold listReplace
  simp only [List.cons_append, List.length_cons, List.length_append]
  simp only [listReplaceF]
  rw [if_pos]
  · congr 1
    rw [show ((p :: (ps ++ q)).drop (p :: ps).length) = q by
      rw [show (p :: (ps ++ q)) = ((p :: ps) ++ q) from rfl]
      exact List.drop_left (p :: ps) q]
    exact listReplaceF_fuel (p :: ps) rep _ q _ (by simp [Nat.le_add_left]) le_rfl
  · rw [show (p :: (ps ++ q)) = ((p :: ps) ++ q) from rfl]
    simp [isPrefixOf_append_self]

theorem listReplace_cons_no_match (pat rep : List Char) (c : Char) (s : List Char)
    (h : pat.isPrefixOf (c :: s) = false) :
    listReplace pat rep (c :: s) = c :: listReplace pat rep s := by
  unfold listReplace
  simp only [List.length_cons, listReplaceF]
  rw [if_neg (by simp [h])]

theorem listReplace_boundary (pat rep q : List Char) (hne : pat ≠ []) :
    ∀ p, scanBoundary pat (pat ++ q) p = false →
    listReplace pat rep (p ++ (pat ++ q)) = p ++ (rep ++ listReplace pat rep q) := by
  intro p
  induction p with
  | nil => intro _; simpa using listReplace_head_match pat rep q hne
  | cons c p' ih =>
    intro h
    rw [scanBoundary, Bool.or_eq_false_iff] at h
    obtain ⟨h1, h2⟩ := h
    rw [List.cons_append, listReplace_cons_no_match pat rep c _ h1, ih h2]
    rfl

/-- C7: rendering the template "Update \x7b\x7b project_name \x7d\x7d"
with repository name "svc-a" yields exactly "Update svc-a"; and for
every template of the shape `prefixPart ++ placeholder ++ suffixPart`
and every name, both the spaced and the unspaced placeholder are
substituted with the repository name (the stated occurrence side
conditions rule out overlapping or freshly-created occurrences, under
which Python's sequential double `str.replace` is exact). -/
theorem C7_render_commit_message_subst :
    render_commit_message ("Update \x7b\x7b project_name \x7d\x7d") ("svc-a") =
      "Update svc-a" ∧
    (∀ p q nm : List Char,
      scanBoundary spacedPlaceholder (spacedPlaceholder ++ q) p = false →
      hasOccurrence spacedPlaceholder q = false →
      hasOccurrence unspacedPlaceholder (p ++ (nm ++ q)) = false →
      (render_commit_message (String.mk (p ++ (spacedPlaceholder ++ q)))
        (String.mk nm)).data = p ++ (nm ++ q)) ∧
    (∀ p q nm : List Char,
      hasOccurrence spacedPlaceholder (p ++ (unspacedPlaceholder ++ q)) = false →
      scanBoundary unspacedPlaceholder (unspacedPlaceholder ++ q) p = false →
      hasOccurrence unspacedPlaceholder q = false →
      (render_commit_message (String.mk (p ++ (unspacedPlaceholder ++ q)))
        (String.mk nm)).data = p ++ (nm ++ q)) := by
  refine ⟨by decide, ?_, ?_⟩
  · intro p q nm hb hq hu
    unfold render_commit_message
    dsimp only
    rw [listReplace_boundary spacedPlaceholder nm q (by decide) p hb,
      listReplace_no_occ spacedPlaceholder nm q hq,
      listReplace_no_occ unspacedPlaceholder nm _ hu]
  · intro p q nm h1 h2 h3
    unfold render_commit_message
    dsimp only
    rw [listReplace_no_occ spacedPlaceholder nm _ h1,
      listReplace_boundary unspacedPlaceholder nm q (by decide) p h2,
      listReplace_no_occ unspacedPlaceholder nm q h3]

/-- Witness for C7: both placeholder spellings substituted at the
concrete template prefix "Update " and name "svc-a". -/
theorem C7_render_commit_message_subst_witness :
    (render_commit_message
      (String.mk (("Update ").data ++ (spacedPlaceholder ++ [])))
      (String.mk (("svc-a").data))).data =
        ("Update ").data ++ (("svc-a").data ++ []) ∧
    (render_commit_message
      (String.mk (("Update ").data ++ (unspacedPlaceholder ++ [])))
      (String.mk (("svc-a").data))).data =
        ("Update ").data ++ (("svc-a").data ++ []) :=
  ⟨C7_render_commit_message_subst.2.1 (("Update ").data) [] (("svc-a").data)
      (by decide) (by decide) (by decide),
   C7_render_commit_message_subst.2.2 (("Update ").data) [] (("svc-a").data)
      (by decide) (by decide) (by decide)⟩
